import Mathlib

/-! blue: ledger contract and gateway submission pipeline

A shallow embedding of

* `chaincode_bluemix/table_handler.go` (`createTable`, `submitSend`, `submitOffer`),
* `chaincode_bluemix/blue.go` (`send`, `offer`, `Init`, `Invoke`, `Query`),
* `app_bluemix/utils.go` (`processTransaction`),
* `app_bluemix/app.go` (`Send`, `Offer`),

followed by theorems about them.

Conventions.  A Go `error` is an `Option String` (`none` is `nil`, `some m` is an error
whose message is `m`).  A Go pointer that may be `nil` is an `Option`.  Code that talks to
an external collaborator (the ledger stub, the peer connection, the submitter used by the
HTTP handlers) takes that collaborator as a record of state-passing functions over an
arbitrary state type `σ`; a `recording` wrapper of such a record appends every call to a
log, so that "which calls were issued" is a statement about that log.
-/

namespace Blue

/-- A Go `error`: `none` is `nil`, `some m` is an error with message `m`. -/
abbrev Error := Option String

/-- A Go `[]byte` result; the contract only ever returns `nil`, which is `none`. -/
abbrev Bytes := Option (List Nat)

/-! ## The ledger stub interface (`shim.ChaincodeStubInterface`) -/

/-- Mirror of `shim.ColumnDefinition`: the column name and its key flag.  Every column of
this contract has type `ColumnDefinition_STRING`, so the type field is left out. -/
structure ColumnDefinition where
  Name : String
  Key : Bool
deriving DecidableEq, Repr

/-- Mirror of `shim.Row`: the string values of the columns, in order. -/
structure Row where
  Columns : List String
deriving DecidableEq, Repr

/-- The two stub operations the contract uses, as state-passing functions over the state
of the stub, `σ`: `CreateTable(name, columnDefinitions) error` and
`InsertRow(tableName, row) (bool, error)`. -/
structure ChaincodeStub (σ : Type) where
  CreateTable : σ → String → List ColumnDefinition → σ × Error
  InsertRow : σ → String → Row → σ × Bool × Error

/-- One call made to the stub. -/
inductive StoreOp where
  | createTable (name : String) (columnDefinitions : List ColumnDefinition)
  | insertRow (tableName : String) (row : Row)
deriving DecidableEq, Repr

/-- The stub `stub` with a call log attached: every operation behaves as in `stub` and is
appended to the log. -/
def ChaincodeStub.recording {σ : Type} (stub : ChaincodeStub σ) :
    ChaincodeStub (σ × List StoreOp) where
  CreateTable := fun s name defs =>
    let r := stub.CreateTable s.1 name defs
    ((r.1, s.2 ++ [StoreOp.createTable name defs]), r.2)
  InsertRow := fun s name row =>
    let r := stub.InsertRow s.1 name row
    ((r.1, s.2 ++ [StoreOp.insertRow name row]), r.2)

/-! ## A table store -/

/-- One table of the ledger: its name, its column definitions and its rows in insertion
order. -/
structure Table where
  name : String
  columnDefinitions : List ColumnDefinition
  rows : List Row
deriving DecidableEq, Repr

/-- The ledger state: the tables created so far. -/
abbrev Ledger := List Table

/-- The key of a row under a list of column definitions: the values of the columns whose
definition has `Key = true`, in column order. -/
def keyOf (defs : List ColumnDefinition) (row : Row) : List String :=
  (defs.zip row.Columns).filterMap fun p => if p.1.Key then some p.2 else none

/-- Look a table up by name. -/
def Ledger.getTable (l : Ledger) (name : String) : Option Table :=
  l.find? fun t => t.name = name

/-- Modelled from the spec: the ledger table store behind `stub.CreateTable` and
`stub.InsertRow` (the fabric shim, an external collaborator that is not among the
sources).  `createTable(name, columnDefs[])` fails when the table already exists or the
definition is rejected (here: no columns); `insertRow(tableName, columns[]) -> (ok, err)`
fails with a store error when the table is missing or the row does not have as many columns as
the table, reports not-ok with no error exactly when a row with equal key-column
values is present, and otherwise appends the row (insert-only: no update, no delete). -/
def ledgerStub : ChaincodeStub Ledger where
  CreateTable := fun l name defs =>
    match l.getTable name with
    | some _ => (l, some "CreateTable operation failed. Table already exists.")
    | none =>
      if defs.isEmpty then (l, some "Invalid table definition.")
      else (l ++ [{ name := name, columnDefinitions := defs, rows := [] }], none)
  InsertRow := fun l name row =>
    match l.getTable name with
    | none => (l, false, some "Table not found.")
    | some t =>
      if row.Columns.length ≠ t.columnDefinitions.length then
        (l, false, some "Row does not match the table definition.")
      else if t.rows.any (fun r => keyOf t.columnDefinitions r = keyOf t.columnDefinitions row) then
        (l, false, none)
      else
        (l.map (fun u => if u.name = name then { u with rows := u.rows ++ [row] } else u),
          true, none)

/-- The rows of table `name` (empty when the table does not exist). -/
def Ledger.rowsOf (l : Ledger) (name : String) : List Row :=
  match l.getTable name with
  | some t => t.rows
  | none => []

/-! ## `chaincode_bluemix/table_handler.go` -/

def tableSend : String := "send"
def tableOffer : String := "offer"
def columnSender : String := "sender"
def columnReceiver : String := "receiver"
def columnAmount : String := "amount"
def columnCurrency : String := "currency"
def columnTakerGets : String := "takerGets"
def columnTakerPays : String := "takerPays"
def columnTimestamp : String := "timestamp"

/-- The column definitions `createTable` passes for the send table. -/
def sendColumns : List ColumnDefinition :=
  [ { Name := columnTimestamp, Key := true },
    { Name := columnSender, Key := true },
    { Name := columnReceiver, Key := true },
    { Name := columnAmount, Key := true },
    { Name := columnCurrency, Key := false } ]

/-- The column definitions `createTable` passes for the offer table. -/
def offerColumns : List ColumnDefinition :=
  [ { Name := columnTimestamp, Key := true },
    { Name := columnSender, Key := true },
    { Name := columnTakerGets, Key := true },
    { Name := columnTakerPays, Key := true } ]

/-- Embedding of `tableHandler.createTable`: create the send table, return its error if there is one,
otherwise create the offer table and return the error of that call. -/
def createTable {σ : Type} (stub : ChaincodeStub σ) (st : σ) : σ × Error :=
  let r := stub.CreateTable st tableSend sendColumns
  match r.2 with
  | some e => (r.1, some e)
  | none => stub.CreateTable r.1 tableOffer offerColumns

/-- Embedding of `tableHandler.submitSend(stub, sender, receiver, amount, currency, timestamp)`: one
`InsertRow` into `tableSend` of the row `[timestamp, sender, receiver, amount, currency]`
(the parameters, by name); the error "Fiel was already signed." when `!ok && err == nil`,
and `nil` on every other outcome. -/
def submitSend {σ : Type} (stub : ChaincodeStub σ) (st : σ)
    (sender receiver amount currency timestamp : String) : σ × Error :=
  let r := stub.InsertRow st tableSend { Columns := [timestamp, sender, receiver, amount, currency] }
  let ok := r.2.1
  let err := r.2.2
  if ok = false ∧ err = none then (r.1, some "Fiel was already signed.")
  else (r.1, none)

/-- Embedding of `tableHandler.submitOffer(stub, sender, takerGets, takerPays, timestamp)`: one
`InsertRow` into `tableSend` (sic) of the row `[timestamp, sender, takerGets, takerPays]`
(the parameters, by name); same result mapping as `submitSend`. -/
def submitOffer {σ : Type} (stub : ChaincodeStub σ) (st : σ)
    (sender takerGets takerPays timestamp : String) : σ × Error :=
  let r := stub.InsertRow st tableSend { Columns := [timestamp, sender, takerGets, takerPays] }
  let ok := r.2.1
  let err := r.2.2
  if ok = false ∧ err = none then (r.1, some "Fiel was already signed.")
  else (r.1, none)

/-! ## `chaincode_bluemix/blue.go` -/

/-- Embedding of `BlueChaincode.send`: five arguments `sender, receiver, amount, currency, timestr`
(in that order), then the call `sHandler.submitSend(stub, timestr, sender, receiver,
amount, currency)` with the arguments in exactly the positions of the source. -/
def send {σ : Type} (stub : ChaincodeStub σ) (st : σ) (args : List String) :
    σ × Bytes × Error :=
  if args.length ≠ 5 then (st, none, some "Incorrect number of arguments. Expecting 5")
  else
    let sender := args.getD 0 ""
    let receiver := args.getD 1 ""
    let amount := args.getD 2 ""
    let currency := args.getD 3 ""
    let timestr := args.getD 4 ""
    let r := submitSend stub st timestr sender receiver amount currency
    (r.1, none, r.2)

/-- Embedding of `BlueChaincode.offer`: four arguments `sender, takerGets, takerPays, timestr`, then the
call `sHandler.submitOffer(stub, timestr, sender, takerGets, takerPays)` with the
arguments in exactly the positions of the source. -/
def offer {σ : Type} (stub : ChaincodeStub σ) (st : σ) (args : List String) :
    σ × Bytes × Error :=
  if args.length ≠ 4 then (st, none, some "Incorrect number of arguments. Expecting 4")
  else
    let sender := args.getD 0 ""
    let takerGets := args.getD 1 ""
    let takerPays := args.getD 2 ""
    let timestr := args.getD 3 ""
    let r := submitOffer stub st timestr sender takerGets takerPays
    (r.1, none, r.2)

/-- Embedding of `BlueChaincode.Init`: rejects any non-empty argument list, otherwise `createTable`. -/
def Init {σ : Type} (stub : ChaincodeStub σ) (st : σ) (function : String)
    (args : List String) : σ × Bytes × Error :=
  let _ := function
  if args.length ≠ 0 then (st, none, some "Incorrect number of arguments. Expecting 0")
  else
    let r := createTable stub st
    (r.1, none, r.2)

/-- Embedding of `BlueChaincode.Invoke`: dispatch on the function name. -/
def Invoke {σ : Type} (stub : ChaincodeStub σ) (st : σ) (function : String)
    (args : List String) : σ × Bytes × Error :=
  if function = "send" then send stub st args
  else if function = "offer" then offer stub st args
  else (st, none, some "Received unknown function invocation")

/-- Embedding of `BlueChaincode.Query`: always the unknown-function error; the stub is not touched. -/
def Query {σ : Type} (stub : ChaincodeStub σ) (st : σ) (function : String)
    (args : List String) : σ × Bytes × Error :=
  let _ := stub
  let _ := args
  (st, none, some ("Received unknown function query invocation with function " ++ function))

/-! ## `app_bluemix/utils.go` -/

/-- Mirror of `pb.Response`: the status code and the message. -/
structure Response where
  Status : Int
  Msg : String
deriving DecidableEq, Repr

/-- Mirror of `pb.Transaction`, which `processTransaction` only passes on: its payload. -/
structure Transaction where
  Payload : List String
deriving DecidableEq, Repr

/-- The peer connection as `processTransaction` uses it, over the connection state `σ`:
`serverClient.ProcessTransaction(ctx, tx) (*pb.Response, error)` and
`initPeerClient() error` (the reconnect). -/
structure PeerClient (σ : Type) where
  ProcessTransaction : σ → Transaction → σ × Option Response × Error
  initPeerClient : σ → σ × Error

/-- One call made to the peer connection, with its outcome. -/
inductive PeerCall where
  | submit (tx : Transaction) (resp : Option Response) (err : Error)
  | reconnect (err : Error)
deriving DecidableEq, Repr

/-- The peer connection `P` with a call log attached. -/
def PeerClient.recording {σ : Type} (P : PeerClient σ) : PeerClient (σ × List PeerCall) where
  ProcessTransaction := fun s tx =>
    let r := P.ProcessTransaction s.1 tx
    ((r.1, s.2 ++ [PeerCall.submit tx r.2.1 r.2.2]), r.2)
  initPeerClient := fun s =>
    let r := P.initPeerClient s.1
    ((r.1, s.2 ++ [PeerCall.reconnect r.2]), r.2)

/-- The body of `for i := 0; i < retryCount; i++ { ... }` in `processTransaction`, by
recursion on the number `n` of iterations left (`retryCount - i`); `resp` and `err` are the
variables of those names in the function.  An iteration reconnects; if that fails it keeps the
reconnect error in `err` and goes on to the next iteration (`continue`); otherwise it
submits, returns at once when the submission has no error, and goes on otherwise. -/
def retryLoop {σ : Type} (P : PeerClient σ) (tx : Transaction) :
    Nat → σ → Option Response → Error → σ × Option Response × Error
  | 0, st, resp, err => (st, resp, err)
  | n + 1, st, resp, _ =>
    let c := P.initPeerClient st
    match c.2 with
    | some e => retryLoop P tx n c.1 resp (some e)
    | none =>
      let r := P.ProcessTransaction c.1 tx
      match r.2.2 with
      | none => (r.1, r.2.1, none)
      | some e => retryLoop P tx n r.1 r.2.1 (some e)

/-- Embedding of `processTransaction(tx)`: one submission; when it fails, the retry loop, which runs
`retryCount` iterations (none when `retryCount ≤ 0`).  `retryCount` is a package variable
declared outside the given sources and is a parameter here. -/
def processTransaction {σ : Type} (P : PeerClient σ) (retryCount : Int) (st : σ)
    (tx : Transaction) : σ × Option Response × Error :=
  let r := P.ProcessTransaction st tx
  match r.2.2 with
  | some e => retryLoop P tx retryCount.toNat r.1 r.2.1 (some e)
  | none => (r.1, r.2.1, none)

/-- A peer whose `ProcessTransaction` fails on its first `N` calls (the `k`-th failing call,
counted from 0, with error `errs k` and a nil response) and succeeds with `resp` on every
later call, and whose reconnect always succeeds.  The state is the number of
`ProcessTransaction` calls made so far. -/
def flakyPeer (N : Nat) (errs : Nat → String) (resp : Response) : PeerClient Nat where
  ProcessTransaction := fun k _ =>
    if k < N then (k + 1, none, some (errs k)) else (k + 1, some resp, none)
  initPeerClient := fun k => (k, none)

/-- A peer that follows a script: the `i`-th `ProcessTransaction` call (from 0) returns
`submits i`, the `j`-th reconnect returns `reconnects j`.  The state is the pair of the
numbers of submissions and of reconnects made so far. -/
def scriptedPeer (submits : Nat → Option Response × Error) (reconnects : Nat → Error) :
    PeerClient (Nat × Nat) where
  ProcessTransaction := fun s _ => ((s.1 + 1, s.2), submits s.1)
  initPeerClient := fun s => ((s.1, s.2 + 1), reconnects s.2)

/-- The error of the last failed call of a log (`none` when no call failed). -/
def lastFailure : List PeerCall → Error
  | [] => none
  | PeerCall.submit _ _ (some e) :: rest =>
    match lastFailure rest with
    | some e2 => some e2
    | none => some e
  | PeerCall.reconnect (some e) :: rest =>
    match lastFailure rest with
    | some e2 => some e2
    | none => some e
  | _ :: rest => lastFailure rest

/-- Whether a call is a submission that returned no error. -/
def PeerCall.isSuccessfulSubmit : PeerCall → Bool
  | PeerCall.submit _ _ none => true
  | _ => false

/-- Whether a call is a reconnect. -/
def PeerCall.isReconnect : PeerCall → Bool
  | PeerCall.reconnect _ => true
  | _ => false

/-- Whether a call is a submission. -/
def PeerCall.isSubmit : PeerCall → Bool
  | PeerCall.submit _ _ _ => true
  | _ => false

/-- Whether a call is a submission that returned an error. -/
def PeerCall.isFailedSubmit : PeerCall → Bool
  | PeerCall.submit _ _ (some _) => true
  | _ => false

/-- Whether a call is a reconnect that returned no error. -/
def PeerCall.isSuccessfulReconnect : PeerCall → Bool
  | PeerCall.reconnect none => true
  | _ => false

/-- The number of reconnect attempts (`initPeerClient` calls) in a log. -/
def reconnectAttempts (log : List PeerCall) : Nat :=
  log.countP PeerCall.isReconnect

/-- The number of reconnects in a log that returned no error. -/
def successfulReconnects (log : List PeerCall) : Nat :=
  log.countP PeerCall.isSuccessfulReconnect

/-- The number of submissions (`ProcessTransaction` calls) in a log. -/
def submissions (log : List PeerCall) : Nat :=
  log.countP PeerCall.isSubmit

/-- The number of submissions in a log that returned an error. -/
def failedSubmissions (log : List PeerCall) : Nat :=
  log.countP PeerCall.isFailedSubmit

/-! ## `app_bluemix/app.go` -/

/-- Mirror of `BlueResponse`. -/
structure BlueResponse where
  Status : String
deriving DecidableEq, Repr

/-- What a handler wrote: the status code given to `rw.WriteHeader` and the encoded body. -/
structure HttpReply where
  code : Nat
  body : BlueResponse
deriving DecidableEq, Repr

/-- The part of `web.Request` the handlers read: `req.FormValue(key)`, which is the empty
string for a missing key. -/
structure Request where
  FormValue : String → String

/-- The submitter the handlers call, over its state `σ`:
`invokeChaincode(deployerClient, chaincodeInput) (*pb.Response, error)`, given the strings
of `chaincodeInput.Args`. -/
structure Submitter (σ : Type) where
  invokeChaincode : σ → List String → σ × Option Response × Error

/-- The submitter `S` with a log of the argument lists it was called with. -/
def Submitter.recording {σ : Type} (S : Submitter σ) : Submitter (σ × List (List String)) where
  invokeChaincode := fun s args =>
    let r := S.invokeChaincode s.1 args
    ((r.1, s.2 ++ [args]), r.2)

def StatusBadRequest : Nat := 400
def StatusOK : Nat := 200

/-- The text `%v` prints for an `error`: its message, or `<nil>` for a nil error. -/
def fmtError : Error → String
  | some m => m
  | none => "<nil>"

/-- Embedding of `BlueAPP.Send`.  `timestr` is the clock reading `time.Now().In(location).String()`.
The result is the state of the submitter and what was written to the response; it is
`none` when the handler dereferences a nil response (`resp.Status` with `resp == nil`). -/
def Send {σ : Type} (S : Submitter σ) (st : σ) (req : Request) (timestr : String) :
    σ × Option HttpReply :=
  let sender := req.FormValue "sender"
  let receiver := req.FormValue "receiver"
  let amount := req.FormValue "amount"
  let currency := req.FormValue "currency"
  if sender = "" ∨ receiver = "" ∨ amount = "" ∨ currency = "" then
    (st, some { code := StatusBadRequest, body := { Status := "params error" } })
  else
    let args := ["send", sender, receiver, amount, currency, timestr]
    let r := S.invokeChaincode st args
    let resp := r.2.1
    let err := r.2.2
    if err ≠ none then
      let errstr := "offer error: " ++ fmtError err
      (r.1, some { code := StatusBadRequest, body := { Status := errstr } })
    else
      match resp with
      | none => (r.1, none)
      | some rp =>
        if rp.Status ≠ 200 then
          let errstr := "offer error: " ++ fmtError err
          (r.1, some { code := StatusBadRequest, body := { Status := errstr } })
        else
          (r.1, some { code := StatusOK, body := { Status := "success" } })

/-- Embedding of `BlueAPP.Offer`; see `Send` for the conventions. -/
def Offer {σ : Type} (S : Submitter σ) (st : σ) (req : Request) (timestr : String) :
    σ × Option HttpReply :=
  let sender := req.FormValue "sender"
  let takerGets := req.FormValue "takerGets"
  let takerPays := req.FormValue "takerPays"
  if sender = "" ∨ takerGets = "" ∨ takerPays = "" then
    (st, some { code := StatusBadRequest, body := { Status := "params error" } })
  else
    let args := ["offer", sender, takerGets, takerPays, timestr]
    let r := S.invokeChaincode st args
    let resp := r.2.1
    let err := r.2.2
    if err ≠ none then
      let errstr := "offer error: " ++ fmtError err
      (r.1, some { code := StatusBadRequest, body := { Status := errstr } })
    else
      match resp with
      | none => (r.1, none)
      | some rp =>
        if rp.Status ≠ 200 then
          let errstr := "offer error: " ++ fmtError err
          (r.1, some { code := StatusBadRequest, body := { Status := errstr } })
        else
          (r.1, some { code := StatusOK, body := { Status := "success" } })

/-- A request built from a list of form fields: the first value given for a key, and the
empty string for a key that is absent. -/
def Request.ofFields (fields : List (String × String)) : Request where
  FormValue := fun key =>
    match fields.find? (fun p => p.1 = key) with
    | some p => p.2
    | none => ""

/-- A submitter that answers every call with the same response and error. -/
def constSubmitter (resp : Option Response) (err : Error) : Submitter Unit where
  invokeChaincode := fun st _ => (st, resp, err)

/-- A stub whose `InsertRow` always reports the outcome `(ok, err)` and whose `CreateTable`
always succeeds. -/
def constStub (ok : Bool) (err : Error) : ChaincodeStub Unit where
  CreateTable := fun st _ _ => (st, none)
  InsertRow := fun st _ _ => (st, ok, err)

/-- The ledger after a successful `Init` on the empty store, with an empty call log. -/
def initialised : Ledger × List StoreOp :=
  ((Init ledgerStub [] "init" []).1, [])

/-! ## Theorems: the ledger contract -/

/-- The recording stub logs an `InsertRow` and otherwise behaves as the stub it wraps. -/
theorem recording_InsertRow {σ : Type} (stub : ChaincodeStub σ) (s : σ × List StoreOp)
    (name : String) (row : Row) :
    stub.recording.InsertRow s name row
      = (((stub.InsertRow s.1 name row).1, s.2 ++ [StoreOp.insertRow name row]),
          (stub.InsertRow s.1 name row).2) := rfl

/-- The recording stub logs a `CreateTable` and otherwise behaves as the stub it wraps. -/
theorem recording_CreateTable {σ : Type} (stub : ChaincodeStub σ) (s : σ × List StoreOp)
    (name : String) (defs : List ColumnDefinition) :
    stub.recording.CreateTable s name defs
      = (((stub.CreateTable s.1 name defs).1, s.2 ++ [StoreOp.createTable name defs]),
          (stub.CreateTable s.1 name defs).2) := rfl

/-- The calls of `submitSend`: one `InsertRow` into the send table, of the row made of its
parameters `timestamp, sender, receiver, amount, currency`. -/
theorem submitSend_log {σ : Type} (stub : ChaincodeStub σ) (st : σ) (log : List StoreOp)
    (sender receiver amount currency timestamp : String) :
    (submitSend stub.recording (st, log) sender receiver amount currency timestamp).1.2
      = log ++ [StoreOp.insertRow "send"
          { Columns := [timestamp, sender, receiver, amount, currency] }] := by
  unfold submitSend
  simp only [recording_InsertRow]
  split <;> rfl

/-- The calls of `submitOffer`: one `InsertRow` into the send table, of the row made of its
parameters `timestamp, sender, takerGets, takerPays`. -/
theorem submitOffer_log {σ : Type} (stub : ChaincodeStub σ) (st : σ) (log : List StoreOp)
    (sender takerGets takerPays timestamp : String) :
    (submitOffer stub.recording (st, log) sender takerGets takerPays timestamp).1.2
      = log ++ [StoreOp.insertRow "send"
          { Columns := [timestamp, sender, takerGets, takerPays] }] := by
  unfold submitOffer
  simp only [recording_InsertRow]
  split <;> rfl

/-- The calls of `Invoke("send", [s, r, a, c, t])`, for every stub: one `InsertRow` into the
send table, of the row `[c, t, s, r, a]`. -/
theorem Invoke_send_log {σ : Type} (stub : ChaincodeStub σ) (st : σ) (log : List StoreOp)
    (s r a c t : String) :
    (Invoke stub.recording (st, log) "send" [s, r, a, c, t]).1.2
      = log ++ [StoreOp.insertRow "send" { Columns := [c, t, s, r, a] }] := by
  simp only [Invoke, send, if_true, List.length_cons, List.length_nil, ne_eq,
    not_true_eq_false, if_false, List.getD_cons_zero, List.getD_cons_succ]
  exact submitSend_log stub st log t s r a c

/-- The calls of `Invoke("offer", [s, g, p, t])`, for every stub: one `InsertRow` into the
send table, of the row `[p, t, s, g]`. -/
theorem Invoke_offer_log {σ : Type} (stub : ChaincodeStub σ) (st : σ) (log : List StoreOp)
    (s g p t : String) :
    (Invoke stub.recording (st, log) "offer" [s, g, p, t]).1.2
      = log ++ [StoreOp.insertRow "send" { Columns := [p, t, s, g] }] := by
  have h : ¬ ("offer" = "send") := by decide
  simp only [Invoke, offer, h, if_true, List.length_cons, List.length_nil, ne_eq,
    not_true_eq_false, if_false, List.getD_cons_zero, List.getD_cons_succ]
  exact submitOffer_log stub st log t s g p

/-- C1, evaluated on the code.  On the initialised ledger, `Invoke("send",
["A","B","10","USD","T1"])` issues exactly one `InsertRow` on the send table, but its row is
`["USD","T1","A","B","10"]`, not `["T1","A","B","10","USD"]`: the send table then holds
that one row, whose key under the declared key columns is `(USD, T1, A, B)` and whose
non-key column is `10`. -/
theorem send_persists_shifted_row :
    (Invoke ledgerStub.recording initialised "send" ["A", "B", "10", "USD", "T1"]).1.2
        = [StoreOp.insertRow "send" { Columns := ["USD", "T1", "A", "B", "10"] }]
      ∧ (Invoke ledgerStub.recording initialised "send" ["A", "B", "10", "USD", "T1"]).1.2
        ≠ [StoreOp.insertRow "send" { Columns := ["T1", "A", "B", "10", "USD"] }]
      ∧ Ledger.rowsOf
          (Invoke ledgerStub.recording initialised "send" ["A", "B", "10", "USD", "T1"]).1.1
          "send" = [{ Columns := ["USD", "T1", "A", "B", "10"] }]
      ∧ keyOf sendColumns { Columns := ["USD", "T1", "A", "B", "10"] }
        = ["USD", "T1", "A", "B"] := by
  refine ⟨?_, ?_, ?_, ?_⟩ <;> decide

/-- C2, evaluated on the code.  On the initialised ledger with an empty send table, after
`Invoke("send", ["A","B","10","USD","T1"])`:
a second send that differs only in the amount (`"20"`) fails with the duplicate-record
error and adds no row, and a second send that differs only in the currency (`"EUR"`)
succeeds and adds a second row. -/
theorem send_uniqueness_on_shifted_key :
    Ledger.rowsOf initialised.1 "send" = []
      ∧ (Invoke ledgerStub.recording initialised "send" ["A", "B", "10", "USD", "T1"]).2
        = (none, none)
      ∧ (Invoke ledgerStub.recording
          (Invoke ledgerStub.recording initialised "send" ["A", "B", "10", "USD", "T1"]).1
          "send" ["A", "B", "20", "USD", "T1"]).2 = (none, some "Fiel was already signed.")
      ∧ Ledger.rowsOf (Invoke ledgerStub.recording
          (Invoke ledgerStub.recording initialised "send" ["A", "B", "10", "USD", "T1"]).1
          "send" ["A", "B", "20", "USD", "T1"]).1.1 "send"
        = [{ Columns := ["USD", "T1", "A", "B", "10"] }]
      ∧ (Invoke ledgerStub.recording
          (Invoke ledgerStub.recording initialised "send" ["A", "B", "10", "USD", "T1"]).1
          "send" ["A", "B", "10", "EUR", "T1"]).2 = (none, none)
      ∧ Ledger.rowsOf (Invoke ledgerStub.recording
          (Invoke ledgerStub.recording initialised "send" ["A", "B", "10", "USD", "T1"]).1
          "send" ["A", "B", "10", "EUR", "T1"]).1.1 "send"
        = [{ Columns := ["USD", "T1", "A", "B", "10"] },
           { Columns := ["EUR", "T1", "A", "B", "10"] }] := by
  refine ⟨?_, ?_, ?_, ?_, ?_, ?_⟩ <;> decide

/-- C3, evaluated on the code.  On the initialised ledger, `Invoke("offer",
["alice","10XRP","5USD","T1"])` issues exactly one `InsertRow`, but against the send table
and with the row `["5USD","T1","alice","10XRP"]`, not against the offer table with the row
`["T1","alice","10XRP","5USD"]`; the call reports success and the offer table stays
empty. -/
theorem offer_inserts_into_send_table :
    (Invoke ledgerStub.recording initialised "offer" ["alice", "10XRP", "5USD", "T1"]).1.2
        = [StoreOp.insertRow "send" { Columns := ["5USD", "T1", "alice", "10XRP"] }]
      ∧ (Invoke ledgerStub.recording initialised "offer" ["alice", "10XRP", "5USD", "T1"]).1.2
        ≠ [StoreOp.insertRow "offer" { Columns := ["T1", "alice", "10XRP", "5USD"] }]
      ∧ (Invoke ledgerStub.recording initialised "offer" ["alice", "10XRP", "5USD", "T1"]).2
        = (none, none)
      ∧ Ledger.rowsOf
          (Invoke ledgerStub.recording initialised "offer" ["alice", "10XRP", "5USD", "T1"]).1.1
          "offer" = [] := by
  refine ⟨?_, ?_, ?_, ?_⟩ <;> decide

/-- C4, evaluated on the code.  Whatever the row, whenever `InsertRow` reports a store error
`e` (with `ok` true or false), `submitSend` and `submitOffer` return a nil error: the store
error is dropped, and with `ok = false` this is a success reported for an insert that did
not happen. -/
theorem submit_drops_store_error (ok : Bool) (e : String)
    (sender receiver amount currency timestamp takerGets takerPays : String) :
    (submitSend (constStub ok (some e)) () sender receiver amount currency timestamp).2 = none
      ∧ (submitOffer (constStub ok (some e)) () sender takerGets takerPays timestamp).2
        = none := by
  simp [submitSend, submitOffer, constStub]

/-- C5.  For every stub, stub state and call log:
`Invoke("send", args)` with `len(args) != 5` returns the error "Incorrect number of
arguments. Expecting 5" and leaves the stub state and the call log as they were (no store
operation); likewise `Invoke("offer", args)` with `len(args) != 4`; and with exactly 5
(resp. 4) arguments that error is not what is returned. -/
theorem argument_count_enforced {σ : Type} (stub : ChaincodeStub σ) (st : σ)
    (log : List StoreOp) :
    (∀ args : List String, args.length ≠ 5 →
        Invoke stub.recording (st, log) "send" args
          = ((st, log), none, some "Incorrect number of arguments. Expecting 5"))
      ∧ (∀ args : List String, args.length ≠ 4 →
        Invoke stub.recording (st, log) "offer" args
          = ((st, log), none, some "Incorrect number of arguments. Expecting 4"))
      ∧ (∀ args : List String, args.length = 5 →
        (Invoke stub.recording (st, log) "send" args).2.2
          ≠ some "Incorrect number of arguments. Expecting 5")
      ∧ (∀ args : List String, args.length = 4 →
        (Invoke stub.recording (st, log) "offer" args).2.2
          ≠ some "Incorrect number of arguments. Expecting 4") := by
  have h : ¬ ("offer" = "send") := by decide
  refine ⟨?_, ?_, ?_, ?_⟩
  · intro args hlen
    simp [Invoke, send, hlen]
  · intro args hlen
    simp [Invoke, offer, h, hlen]
  · intro args hlen
    simp only [Invoke, send, if_true, hlen, ne_eq, not_true_eq_false, if_false, submitSend]
    split
    · simp
    · simp
  · intro args hlen
    simp only [Invoke, offer, h, if_true, hlen, ne_eq, not_true_eq_false, if_false,
      submitOffer]
    split
    · simp
    · simp

/-- C5 at concrete inputs: four and six arguments to `send`, five to `offer`, and the exact
counts, on the initialised ledger. -/
theorem argument_count_enforced_witness :
    Invoke ledgerStub.recording initialised "send" ["A", "B", "10", "USD"]
        = (initialised, none, some "Incorrect number of arguments. Expecting 5")
      ∧ Invoke ledgerStub.recording initialised "offer" ["A", "B", "10", "USD", "T1"]
        = (initialised, none, some "Incorrect number of arguments. Expecting 4")
      ∧ (Invoke ledgerStub.recording initialised "send" ["A", "B", "10", "USD", "T1"]).2.2
        ≠ some "Incorrect number of arguments. Expecting 5"
      ∧ (Invoke ledgerStub.recording initialised "offer" ["A", "10XRP", "5USD", "T1"]).2.2
        ≠ some "Incorrect number of arguments. Expecting 4" :=
  ⟨(argument_count_enforced ledgerStub initialised.1 []).1 _ (by decide),
   (argument_count_enforced ledgerStub initialised.1 []).2.1 _ (by decide),
   (argument_count_enforced ledgerStub initialised.1 []).2.2.1 _ (by decide),
   (argument_count_enforced ledgerStub initialised.1 []).2.2.2 _ (by decide)⟩

/-! ## Theorems: the transaction submitter -/

/-- The recording peer logs a submission and otherwise behaves as the peer it wraps. -/
theorem recording_ProcessTransaction {σ : Type} (P : PeerClient σ) (s : σ × List PeerCall)
    (tx : Transaction) :
    P.recording.ProcessTransaction s tx
      = (((P.ProcessTransaction s.1 tx).1,
            s.2 ++ [PeerCall.submit tx (P.ProcessTransaction s.1 tx).2.1
              (P.ProcessTransaction s.1 tx).2.2]),
          (P.ProcessTransaction s.1 tx).2) := rfl

/-- The recording peer logs a reconnect and otherwise behaves as the peer it wraps. -/
theorem recording_initPeerClient {σ : Type} (P : PeerClient σ) (s : σ × List PeerCall) :
    P.recording.initPeerClient s
      = (((P.initPeerClient s.1).1, s.2 ++ [PeerCall.reconnect (P.initPeerClient s.1).2]),
          (P.initPeerClient s.1).2) := rfl

/-- On the flaky peer, a retry loop that starts at or before call `N` and has enough
iterations left to reach call `N` returns the successful response with a nil error. -/
theorem retryLoop_flaky_success (N : Nat) (errs : Nat → String) (resp : Response)
    (tx : Transaction) :
    ∀ (n k : Nat) (resp0 : Option Response) (err0 : Error), k ≤ N → N < k + n →
      (retryLoop (flakyPeer N errs resp) tx n k resp0 err0).2 = (some resp, none) := by
  intro n
  induction n with
  | zero => intro k resp0 err0 h1 h2; omega
  | succ n ih =>
    intro k resp0 err0 h1 h2
    by_cases hk : k < N
    · have := ih (k + 1) none (some (errs k)) (by omega) (by omega)
      simpa [retryLoop, flakyPeer, hk] using this
    · simp [retryLoop, flakyPeer, hk]

/-- On the flaky peer, a retry loop entered with an error whose iterations all fall among
the first `N` calls returns a non-nil error. -/
theorem retryLoop_flaky_failure (N : Nat) (errs : Nat → String) (resp : Response)
    (tx : Transaction) :
    ∀ (n k : Nat) (resp0 : Option Response) (e0 : String), k + n ≤ N →
      (retryLoop (flakyPeer N errs resp) tx n k resp0 (some e0)).2.2 ≠ none := by
  intro n
  induction n with
  | zero => intro k resp0 e0 _; simp [retryLoop]
  | succ n ih =>
    intro k resp0 e0 h
    have hk : k < N := by omega
    have := ih (k + 1) none (errs k) (by omega)
    simpa [retryLoop, flakyPeer, hk] using this

/-- C6 as stated fails: with `retryCount = 3` and a transport that fails on its first
`N = 3` calls, `N >= retryCount` holds and yet `processTransaction` returns the successful
response with a nil error (the fourth call is the third retry). -/
theorem three_failures_survived_with_three_retries :
    ¬ (((3 : Int) ≤ ((3 : Nat) : Int)) →
        (processTransaction
          (flakyPeer 3 (fun _ => "unavailable") { Status := 200, Msg := "OK" })
          3 0 { Payload := ["send"] }).2.2 ≠ none) := by
  decide

/-- C6, amended.  For `retryCount >= 0` and a transport that fails on its first `N` calls
and succeeds afterwards (every reconnect succeeding), `processTransaction` returns the
successful response with a nil error if `N <= retryCount`, and a non-nil error if
`N > retryCount`: there are `retryCount` retries after the first submission. -/
theorem retry_bound (retryCount : Int) (N : Nat) (errs : Nat → String) (resp : Response)
    (tx : Transaction) (h0 : 0 ≤ retryCount) :
    ((N : Int) ≤ retryCount →
        (processTransaction (flakyPeer N errs resp) retryCount 0 tx).2 = (some resp, none))
      ∧ (retryCount < (N : Int) →
        (processTransaction (flakyPeer N errs resp) retryCount 0 tx).2.2 ≠ none) := by
  constructor
  · intro h
    by_cases hN : 0 < N
    · have hs := retryLoop_flaky_success N errs resp tx retryCount.toNat 1 none
        (some (errs 0)) (by omega) (by omega)
      simpa [processTransaction, flakyPeer, hN] using hs
    · simp [processTransaction, flakyPeer, hN]
  · intro h
    have hN : 0 < N := by omega
    have hf := retryLoop_flaky_failure N errs resp tx retryCount.toNat 1 none (errs 0)
      (by omega)
    simpa [processTransaction, flakyPeer, hN] using hf

/-- C6, amended, at `retryCount = 3`: three failures are survived, four are not. -/
theorem retry_bound_witness :
    (processTransaction (flakyPeer 3 (fun _ => "unavailable") { Status := 200, Msg := "OK" })
        3 0 { Payload := ["send"] }).2 = (some { Status := 200, Msg := "OK" }, none)
      ∧ (processTransaction (flakyPeer 4 (fun _ => "unavailable") { Status := 200, Msg := "OK" })
        3 0 { Payload := ["send"] }).2.2 ≠ none :=
  ⟨(retry_bound 3 3 _ _ _ (by decide)).1 (by decide),
   (retry_bound 3 4 _ _ _ (by decide)).2 (by decide)⟩

/-- C7.  For every peer, connection state, call log, transaction and `retryCount`: when the
first `ProcessTransaction` call returns no transport error, whatever the response and its
status, `processTransaction` returns that response with a nil error, and the log grows by
that one submission only (no reconnect, no second submission). -/
theorem no_retry_without_transport_error {σ : Type} (P : PeerClient σ) (st : σ)
    (log : List PeerCall) (tx : Transaction) (retryCount : Int)
    (h : (P.ProcessTransaction st tx).2.2 = none) :
    processTransaction P.recording retryCount (st, log) tx
      = (((P.ProcessTransaction st tx).1,
            log ++ [PeerCall.submit tx (P.ProcessTransaction st tx).2.1 none]),
          (P.ProcessTransaction st tx).2.1, none) := by
  simp only [processTransaction, recording_ProcessTransaction, h]

/-- C7 at a concrete input: a first response with status 500 and no transport error is
returned as it is, after one submission. -/
theorem no_retry_without_transport_error_witness :
    processTransaction
        (flakyPeer 0 (fun _ => "unavailable")
          { Status := 500, Msg := "Fiel was already signed." }).recording
        3 (0, []) { Payload := ["send"] }
      = ((1, [PeerCall.submit { Payload := ["send"] }
                (some { Status := 500, Msg := "Fiel was already signed." }) none]),
          some { Status := 500, Msg := "Fiel was already signed." }, none) :=
  no_retry_without_transport_error
    (flakyPeer 0 (fun _ => "unavailable") { Status := 500, Msg := "Fiel was already signed." })
    0 [] { Payload := ["send"] } 3 rfl

/-- The last failure of a log that ends in a failed submission is the error of that submission. -/
theorem lastFailure_append_submit (L : List PeerCall) (tx : Transaction)
    (resp : Option Response) (e : String) :
    lastFailure (L ++ [PeerCall.submit tx resp (some e)]) = some e := by
  induction L with
  | nil => simp [lastFailure]
  | cons c L ih =>
    cases c with
    | submit t r err => cases err <;> simp [lastFailure, ih]
    | reconnect err => cases err <;> simp [lastFailure, ih]

/-- The last failure of a log that ends in a failed reconnect is the error of that reconnect. -/
theorem lastFailure_append_reconnect (L : List PeerCall) (e : String) :
    lastFailure (L ++ [PeerCall.reconnect (some e)]) = some e := by
  induction L with
  | nil => simp [lastFailure]
  | cons c L ih =>
    cases c with
    | submit t r err => cases err <;> simp [lastFailure, ih]
    | reconnect err => cases err <;> simp [lastFailure, ih]

/-- Invariant of the retry loop: entered with `err` the last failure of the log so far, a
loop whose run contains no successful submission ends with a non-nil `err` that is the
last failure of the final log. -/
theorem retryLoop_last_error {σ : Type} (P : PeerClient σ) (tx : Transaction) :
    ∀ (n : Nat) (st : σ) (L : List PeerCall) (resp : Option Response) (e : String),
      lastFailure L = some e →
      (∀ c ∈ (retryLoop P.recording tx n (st, L) resp (some e)).1.2,
          c.isSuccessfulSubmit = false) →
      (retryLoop P.recording tx n (st, L) resp (some e)).2.2 ≠ none
        ∧ (retryLoop P.recording tx n (st, L) resp (some e)).2.2
          = lastFailure (retryLoop P.recording tx n (st, L) resp (some e)).1.2 := by
  intro n
  induction n with
  | zero =>
    intro st L resp e hL _
    simp [retryLoop, hL]
  | succ n ih =>
    intro st L resp e hL hno
    unfold retryLoop at hno ⊢
    simp only [recording_initPeerClient, recording_ProcessTransaction] at hno ⊢
    cases hc : (P.initPeerClient st).2 with
    | some e1 =>
      simp only [hc] at hno ⊢
      exact ih _ _ _ _ (lastFailure_append_reconnect L e1) hno
    | none =>
      simp only [hc] at hno ⊢
      cases hr : (P.ProcessTransaction (P.initPeerClient st).1 tx).2.2 with
      | none =>
        simp only [hr] at hno
        have hbad := hno (PeerCall.submit tx (P.ProcessTransaction (P.initPeerClient st).1 tx).2.1
          none) (by simp)
        simp [PeerCall.isSuccessfulSubmit] at hbad
      | some e2 =>
        simp only [hr] at hno ⊢
        exact ih _ _ _ _ (lastFailure_append_submit _ tx _ e2) hno

/-- C8.  For every peer, connection state, transaction and `retryCount`, in the run of
`processTransaction` (a total function: it always returns) started with an empty call log:
if no submission of the run succeeded, the returned error is non-nil and is the error of
the last failed call of the run (a failed reconnect or a failed submission); and a nil
error is returned only when the run contains a successful submission. -/
theorem exhaustion_reports_last_error {σ : Type} (P : PeerClient σ) (st : σ)
    (tx : Transaction) (retryCount : Int) :
    ((∀ c ∈ (processTransaction P.recording retryCount (st, []) tx).1.2,
          c.isSuccessfulSubmit = false) →
        (processTransaction P.recording retryCount (st, []) tx).2.2 ≠ none
          ∧ (processTransaction P.recording retryCount (st, []) tx).2.2
            = lastFailure (processTransaction P.recording retryCount (st, []) tx).1.2)
      ∧ ((processTransaction P.recording retryCount (st, []) tx).2.2 = none →
        ∃ c ∈ (processTransaction P.recording retryCount (st, []) tx).1.2,
          c.isSuccessfulSubmit = true) := by
  have key : (∀ c ∈ (processTransaction P.recording retryCount (st, []) tx).1.2,
          c.isSuccessfulSubmit = false) →
        (processTransaction P.recording retryCount (st, []) tx).2.2 ≠ none
          ∧ (processTransaction P.recording retryCount (st, []) tx).2.2
            = lastFailure (processTransaction P.recording retryCount (st, []) tx).1.2 := by
    intro hno
    unfold processTransaction at hno ⊢
    simp only [recording_ProcessTransaction] at hno ⊢
    cases hr : (P.ProcessTransaction st tx).2.2 with
    | none =>
      simp only [hr] at hno
      have hbad := hno (PeerCall.submit tx (P.ProcessTransaction st tx).2.1 none) (by simp)
      simp [PeerCall.isSuccessfulSubmit] at hbad
    | some e =>
      simp only [hr] at hno ⊢
      exact retryLoop_last_error P tx _ _ _ _ e (lastFailure_append_submit _ tx _ e) hno
  refine ⟨key, ?_⟩
  intro hnil
  by_contra hex
  have hall : ∀ c ∈ (processTransaction P.recording retryCount (st, []) tx).1.2,
      c.isSuccessfulSubmit = false := by
    intro c hc
    cases hs : c.isSuccessfulSubmit with
    | false => rfl
    | true => exact absurd ⟨c, hc, hs⟩ hex
  exact (key hall).1 hnil

/-- C8 at a concrete run with `retryCount = 3`: the first submission fails, the first
reconnect fails, the submission of the second retry fails and the last reconnect fails with
"refused-2"; that last error is what is returned. -/
theorem exhaustion_reports_last_error_witness :
    (processTransaction
        (scriptedPeer (fun i => (none, some (if i = 0 then "down-0" else "down-1")))
          (fun j => if j = 1 then none else some (if j = 0 then "refused-0" else "refused-2"))
          ).recording
        3 ((0, 0), []) { Payload := ["send"] }).2.2 = some "refused-2"
      ∧ (processTransaction
        (scriptedPeer (fun i => (none, some (if i = 0 then "down-0" else "down-1")))
          (fun j => if j = 1 then none else some (if j = 0 then "refused-0" else "refused-2"))
          ).recording
        3 ((0, 0), []) { Payload := ["send"] }).2.2
        = lastFailure (processTransaction
          (scriptedPeer (fun i => (none, some (if i = 0 then "down-0" else "down-1")))
            (fun j => if j = 1 then none else some (if j = 0 then "refused-0" else "refused-2"))
            ).recording
          3 ((0, 0), []) { Payload := ["send"] }).1.2 :=
  ⟨by decide,
   ((exhaustion_reports_last_error
      (scriptedPeer (fun i => (none, some (if i = 0 then "down-0" else "down-1")))
        (fun j => if j = 1 then none else some (if j = 0 then "refused-0" else "refused-2")))
      (0, 0) { Payload := ["send"] } 3).1 (by decide)).2⟩

/-! ## Theorems: the gateway request handlers -/

/-- The recording submitter logs the call and otherwise behaves as the one it wraps. -/
theorem recording_invokeChaincode {σ : Type} (S : Submitter σ) (s : σ × List (List String))
    (args : List String) :
    S.recording.invokeChaincode s args
      = (((S.invokeChaincode s.1 args).1, s.2 ++ [args]), (S.invokeChaincode s.1 args).2) :=
  rfl

/-- C9.  For every submitter, submitter state, call log and clock reading:
if any of `sender`, `receiver`, `amount`, `currency` is the empty string, `Send` writes
status 400 with body status "params error" and leaves the submitter state and the log of
`invokeChaincode` calls as they were; if all four are non-empty, the log grows by exactly
one call, with the arguments `["send", sender, receiver, amount, currency, timestr]`.
Likewise `Offer` over `sender`, `takerGets`, `takerPays`, with the arguments
`["offer", sender, takerGets, takerPays, timestr]`. -/
theorem empty_fields_rejected {σ : Type} (S : Submitter σ) (st : σ)
    (log : List (List String)) (timestr : String) :
    (∀ req : Request,
        (req.FormValue "sender" = "" ∨ req.FormValue "receiver" = ""
          ∨ req.FormValue "amount" = "" ∨ req.FormValue "currency" = "") →
        Send S.recording (st, log) req timestr
          = ((st, log), some { code := 400, body := { Status := "params error" } }))
      ∧ (∀ req : Request,
        (req.FormValue "sender" ≠ "" ∧ req.FormValue "receiver" ≠ ""
          ∧ req.FormValue "amount" ≠ "" ∧ req.FormValue "currency" ≠ "") →
        (Send S.recording (st, log) req timestr).1.2
          = log ++ [["send", req.FormValue "sender", req.FormValue "receiver",
              req.FormValue "amount", req.FormValue "currency", timestr]])
      ∧ (∀ req : Request,
        (req.FormValue "sender" = "" ∨ req.FormValue "takerGets" = ""
          ∨ req.FormValue "takerPays" = "") →
        Offer S.recording (st, log) req timestr
          = ((st, log), some { code := 400, body := { Status := "params error" } }))
      ∧ (∀ req : Request,
        (req.FormValue "sender" ≠ "" ∧ req.FormValue "takerGets" ≠ ""
          ∧ req.FormValue "takerPays" ≠ "") →
        (Offer S.recording (st, log) req timestr).1.2
          = log ++ [["offer", req.FormValue "sender", req.FormValue "takerGets",
              req.FormValue "takerPays", timestr]]) := by
  refine ⟨?_, ?_, ?_, ?_⟩
  · intro req h
    simp only [Send, h, if_true, StatusBadRequest]
  · intro req h
    obtain ⟨h1, h2, h3, h4⟩ := h
    simp only [Send, h1, h2, h3, h4, or_self, if_false, recording_invokeChaincode]
    split
    · rfl
    · split
      · rfl
      · split <;> rfl
  · intro req h
    simp only [Offer, h, if_true, StatusBadRequest]
  · intro req h
    obtain ⟨h1, h2, h3⟩ := h
    simp only [Offer, h1, h2, h3, or_self, if_false, recording_invokeChaincode]
    split
    · rfl
    · split
      · rfl
      · split <;> rfl

/-- C9 at concrete requests: a send without currency and an offer without `takerPays` are
rejected with no call; complete requests make one call. -/
theorem empty_fields_rejected_witness :
    Send (constSubmitter (some { Status := 200, Msg := "OK" }) none).recording ((), [])
        (Request.ofFields [("sender", "alice"), ("receiver", "bob"), ("amount", "10")]) "T1"
        = (((), []), some { code := 400, body := { Status := "params error" } })
      ∧ (Send (constSubmitter (some { Status := 200, Msg := "OK" }) none).recording ((), [])
        (Request.ofFields [("sender", "alice"), ("receiver", "bob"), ("amount", "10"),
          ("currency", "USD")]) "T1").1.2
        = [["send", "alice", "bob", "10", "USD", "T1"]]
      ∧ Offer (constSubmitter (some { Status := 200, Msg := "OK" }) none).recording ((), [])
        (Request.ofFields [("sender", "alice"), ("takerGets", "10XRP"), ("takerPays", "")])
        "T1"
        = (((), []), some { code := 400, body := { Status := "params error" } })
      ∧ (Offer (constSubmitter (some { Status := 200, Msg := "OK" }) none).recording ((), [])
        (Request.ofFields [("sender", "alice"), ("takerGets", "10XRP"),
          ("takerPays", "5USD")]) "T1").1.2
        = [["offer", "alice", "10XRP", "5USD", "T1"]] :=
  ⟨(empty_fields_rejected (constSubmitter (some { Status := 200, Msg := "OK" }) none) () []
      "T1").1
      (Request.ofFields [("sender", "alice"), ("receiver", "bob"), ("amount", "10")])
      (by decide),
   (empty_fields_rejected (constSubmitter (some { Status := 200, Msg := "OK" }) none) () []
      "T1").2.1
      (Request.ofFields [("sender", "alice"), ("receiver", "bob"), ("amount", "10"),
        ("currency", "USD")])
      (by decide),
   (empty_fields_rejected (constSubmitter (some { Status := 200, Msg := "OK" }) none) () []
      "T1").2.2.1
      (Request.ofFields [("sender", "alice"), ("takerGets", "10XRP"), ("takerPays", "")])
      (by decide),
   (empty_fields_rejected (constSubmitter (some { Status := 200, Msg := "OK" }) none) () []
      "T1").2.2.2
      (Request.ofFields [("sender", "alice"), ("takerGets", "10XRP"), ("takerPays", "5USD")])
      (by decide)⟩

/-- C10, evaluated on the code.  For a complete request, when the submission returns no
error and a response with a status other than 200, `Send` and `Offer` write status 400 with
the body status "offer error: <nil>" (the nil error formatted), whatever the response: a
response with status 500 and message "Fiel was already signed." and one with status 404
and message "Received unknown function invocation" get the same status string, which
carries neither message. -/
theorem non200_response_gets_fixed_status :
    (Send (constSubmitter (some { Status := 500, Msg := "Fiel was already signed." }) none) ()
        (Request.ofFields [("sender", "alice"), ("receiver", "bob"), ("amount", "10"),
          ("currency", "USD")]) "T1").2
        = some { code := 400, body := { Status := "offer error: <nil>" } }
      ∧ (Send (constSubmitter
          (some { Status := 404, Msg := "Received unknown function invocation" }) none) ()
        (Request.ofFields [("sender", "alice"), ("receiver", "bob"), ("amount", "10"),
          ("currency", "USD")]) "T1").2
        = some { code := 400, body := { Status := "offer error: <nil>" } }
      ∧ (Offer (constSubmitter (some { Status := 500, Msg := "Fiel was already signed." }) none)
        () (Request.ofFields [("sender", "alice"), ("takerGets", "10XRP"),
          ("takerPays", "5USD")]) "T1").2
        = some { code := 400, body := { Status := "offer error: <nil>" } }
      ∧ (Offer (constSubmitter
          (some { Status := 404, Msg := "Received unknown function invocation" }) none)
        () (Request.ofFields [("sender", "alice"), ("takerGets", "10XRP"),
          ("takerPays", "5USD")]) "T1").2
        = some { code := 400, body := { Status := "offer error: <nil>" } } := by
  refine ⟨?_, ?_, ?_, ?_⟩ <;> decide

/-! ## Theorems: dispatch and initialisation of the contract -/

/-- C11.  For every stub, stub state, call log and argument list: `Invoke` with a function
name other than "send" and "offer" returns the error "Received unknown function
invocation" and leaves the stub state and the call log as they were; `Query` with any
function name, "send" and "offer" included, returns the error "Received unknown function
query invocation with function " followed by the name, and leaves the stub state and the
call log as they were. -/
theorem unknown_function_rejected {σ : Type} (stub : ChaincodeStub σ) (st : σ)
    (log : List StoreOp) (args : List String) :
    (∀ f : String, f ≠ "send" → f ≠ "offer" →
        Invoke stub.recording (st, log) f args
          = ((st, log), none, some "Received unknown function invocation"))
      ∧ (∀ f : String,
        Query stub.recording (st, log) f args
          = ((st, log), none,
              some ("Received unknown function query invocation with function " ++ f))) := by
  constructor
  · intro f h1 h2
    simp only [Invoke, h1, h2, if_false]
  · intro f
    rfl

/-- C11 at concrete inputs on the initialised ledger: `Invoke("query", ...)` and
`Query("send", ...)` with a well-formed send argument list. -/
theorem unknown_function_rejected_witness :
    Invoke ledgerStub.recording initialised "query" ["A", "B", "10", "USD", "T1"]
        = (initialised, none, some "Received unknown function invocation")
      ∧ Query ledgerStub.recording initialised "send" ["A", "B", "10", "USD", "T1"]
        = (initialised, none,
            some "Received unknown function query invocation with function send") :=
  ⟨(unknown_function_rejected ledgerStub initialised.1 [] ["A", "B", "10", "USD", "T1"]).1
      "query" (by decide) (by decide),
   (unknown_function_rejected ledgerStub initialised.1 [] ["A", "B", "10", "USD", "T1"]).2
      "send"⟩

/-- C12.  For every stub, stub state, call log and function name:
with a non-empty argument list `Init` returns the error "Incorrect number of arguments.
Expecting 0" and leaves the stub state and the call log as they were;
with no arguments it calls `CreateTable` for the send table with the columns timestamp,
sender, receiver, amount (key columns) and currency (not a key), and, if the store rejects
that with an error, returns that error with no further call; otherwise it calls
`CreateTable` for the offer table with the columns timestamp, sender, takerGets, takerPays
(all key columns) and returns the result of that call.  So the returned error is non-nil if
and only if the send definition is rejected, or it is accepted and the offer definition is
rejected. -/
theorem Init_provisions_schema {σ : Type} (stub : ChaincodeStub σ) (st : σ)
    (log : List StoreOp) (function : String) :
    (∀ args : List String, args.length ≠ 0 →
        Init stub.recording (st, log) function args
          = ((st, log), none, some "Incorrect number of arguments. Expecting 0"))
      ∧ (∀ e : String,
        (stub.CreateTable st "send"
          [⟨"timestamp", true⟩, ⟨"sender", true⟩, ⟨"receiver", true⟩, ⟨"amount", true⟩,
            ⟨"currency", false⟩]).2 = some e →
        Init stub.recording (st, log) function []
          = (((stub.CreateTable st "send"
                [⟨"timestamp", true⟩, ⟨"sender", true⟩, ⟨"receiver", true⟩, ⟨"amount", true⟩,
                  ⟨"currency", false⟩]).1,
              log ++ [StoreOp.createTable "send"
                [⟨"timestamp", true⟩, ⟨"sender", true⟩, ⟨"receiver", true⟩, ⟨"amount", true⟩,
                  ⟨"currency", false⟩]]),
            none, some e))
      ∧ ((stub.CreateTable st "send"
          [⟨"timestamp", true⟩, ⟨"sender", true⟩, ⟨"receiver", true⟩, ⟨"amount", true⟩,
            ⟨"currency", false⟩]).2 = none →
        Init stub.recording (st, log) function []
          = (((stub.CreateTable
                (stub.CreateTable st "send"
                  [⟨"timestamp", true⟩, ⟨"sender", true⟩, ⟨"receiver", true⟩,
                    ⟨"amount", true⟩, ⟨"currency", false⟩]).1
                "offer"
                [⟨"timestamp", true⟩, ⟨"sender", true⟩, ⟨"takerGets", true⟩,
                  ⟨"takerPays", true⟩]).1,
              log ++ [StoreOp.createTable "send"
                  [⟨"timestamp", true⟩, ⟨"sender", true⟩, ⟨"receiver", true⟩,
                    ⟨"amount", true⟩, ⟨"currency", false⟩],
                StoreOp.createTable "offer"
                  [⟨"timestamp", true⟩, ⟨"sender", true⟩, ⟨"takerGets", true⟩,
                    ⟨"takerPays", true⟩]]),
            none,
            (stub.CreateTable
                (stub.CreateTable st "send"
                  [⟨"timestamp", true⟩, ⟨"sender", true⟩, ⟨"receiver", true⟩,
                    ⟨"amount", true⟩, ⟨"currency", false⟩]).1
                "offer"
                [⟨"timestamp", true⟩, ⟨"sender", true⟩, ⟨"takerGets", true⟩,
                  ⟨"takerPays", true⟩]).2))
      ∧ ((Init stub.recording (st, log) function []).2.2 ≠ none ↔
          ((stub.CreateTable st "send"
              [⟨"timestamp", true⟩, ⟨"sender", true⟩, ⟨"receiver", true⟩, ⟨"amount", true⟩,
                ⟨"currency", false⟩]).2 ≠ none
            ∨ ((stub.CreateTable st "send"
                [⟨"timestamp", true⟩, ⟨"sender", true⟩, ⟨"receiver", true⟩, ⟨"amount", true⟩,
                  ⟨"currency", false⟩]).2 = none
              ∧ (stub.CreateTable
                  (stub.CreateTable st "send"
                    [⟨"timestamp", true⟩, ⟨"sender", true⟩, ⟨"receiver", true⟩,
                      ⟨"amount", true⟩, ⟨"currency", false⟩]).1
                  "offer"
                  [⟨"timestamp", true⟩, ⟨"sender", true⟩, ⟨"takerGets", true⟩,
                    ⟨"takerPays", true⟩]).2 ≠ none))) := by
  refine ⟨?_, ?_, ?_, ?_⟩
  · intro args hlen
    simp only [Init, hlen, ne_eq, not_false_eq_true, if_true]
  · intro e he
    have he2 : (stub.CreateTable st tableSend sendColumns).2 = some e := he
    simp only [Init, createTable, recording_CreateTable, List.length_nil, ne_eq,
      not_true_eq_false, if_false, he2]
    rfl
  · intro he
    have he2 : (stub.CreateTable st tableSend sendColumns).2 = none := he
    simp only [Init, createTable, recording_CreateTable, List.length_nil, ne_eq,
      not_true_eq_false, if_false, he2, List.append_assoc, List.singleton_append]
    rfl
  · cases he : (stub.CreateTable st tableSend sendColumns).2 with
    | some e =>
      have he2 : (stub.CreateTable st "send"
          [⟨"timestamp", true⟩, ⟨"sender", true⟩, ⟨"receiver", true⟩, ⟨"amount", true⟩,
            ⟨"currency", false⟩]).2 = some e := he
      simp [Init, createTable, recording_CreateTable, he, he2]
    | none =>
      have he2 : (stub.CreateTable st "send"
          [⟨"timestamp", true⟩, ⟨"sender", true⟩, ⟨"receiver", true⟩, ⟨"amount", true⟩,
            ⟨"currency", false⟩]).2 = none := he
      simp only [Init, createTable, recording_CreateTable, List.length_nil, ne_eq,
        not_true_eq_false, if_false, he, he2, false_or, true_and]
      rfl

/-- C12 at concrete inputs: one argument; a second `Init` on the initialised ledger, where
the send table exists already; and `Init` on the empty ledger, where both tables are
created. -/
theorem Init_provisions_schema_witness :
    Init ledgerStub.recording ([], []) "init" ["x"]
        = (([], []), none, some "Incorrect number of arguments. Expecting 0")
      ∧ Init ledgerStub.recording initialised "init" []
        = ((initialised.1, [StoreOp.createTable "send"
              [⟨"timestamp", true⟩, ⟨"sender", true⟩, ⟨"receiver", true⟩, ⟨"amount", true⟩,
                ⟨"currency", false⟩]]),
            none, some "CreateTable operation failed. Table already exists.")
      ∧ Init ledgerStub.recording ([], []) "init" []
        = ((initialised.1,
              [StoreOp.createTable "send"
                  [⟨"timestamp", true⟩, ⟨"sender", true⟩, ⟨"receiver", true⟩,
                    ⟨"amount", true⟩, ⟨"currency", false⟩],
                StoreOp.createTable "offer"
                  [⟨"timestamp", true⟩, ⟨"sender", true⟩, ⟨"takerGets", true⟩,
                    ⟨"takerPays", true⟩]]),
            none, none) :=
  ⟨(Init_provisions_schema ledgerStub [] [] "init").1 ["x"] (by decide),
   (Init_provisions_schema ledgerStub initialised.1 [] "init").2.1
      "CreateTable operation failed. Table already exists." (by decide),
   (Init_provisions_schema ledgerStub [] [] "init").2.2.1 (by decide)⟩

/-! ## Theorems: reconnect accounting of the transaction submitter -/

/-- Accounting invariant of the retry loop, relative to the log `L` it is entered with:
at most `n` reconnects are added; every added submission follows an added successful
reconnect; on a nil error all added submissions but one failed; on an error all added
submissions failed and exactly `n` reconnects were added. -/
theorem retryLoop_accounting {σ : Type} (P : PeerClient σ) (tx : Transaction) :
    ∀ (n : Nat) (st : σ) (L : List PeerCall) (resp : Option Response) (e : String)
      (r : (σ × List PeerCall) × Option Response × Error),
      r = retryLoop P.recording tx n (st, L) resp (some e) →
      reconnectAttempts r.1.2 ≤ reconnectAttempts L + n
        ∧ submissions r.1.2 + successfulReconnects L
          = submissions L + successfulReconnects r.1.2
        ∧ (r.2.2 = none →
          failedSubmissions r.1.2 + 1 + submissions L
            = failedSubmissions L + submissions r.1.2)
        ∧ (r.2.2 ≠ none →
          failedSubmissions r.1.2 + submissions L = failedSubmissions L + submissions r.1.2
            ∧ reconnectAttempts r.1.2 = reconnectAttempts L + n) := by
  intro n
  induction n with
  | zero =>
    intro st L resp e r hr
    subst hr
    simp [retryLoop]
  | succ n ih =>
    intro st L resp e r hr
    subst hr
    unfold retryLoop
    simp only [recording_initPeerClient, recording_ProcessTransaction]
    cases hc : (P.initPeerClient st).2 with
    | some e1 =>
      simp only []
      have h := ih (P.initPeerClient st).1 (L ++ [PeerCall.reconnect (some e1)]) resp e1 _ rfl
      simp only [reconnectAttempts, successfulReconnects, submissions, failedSubmissions,
        List.countP_append, List.countP_cons, List.countP_nil, PeerCall.isReconnect,
        PeerCall.isSuccessfulReconnect, PeerCall.isSubmit, PeerCall.isFailedSubmit] at h ⊢
      simp only [if_true, Bool.false_eq_true, if_false] at h
      refine ⟨by omega, by omega, fun hn => ?_, fun hn => ?_⟩
      · have := h.2.2.1 hn
        omega
      · have := h.2.2.2 hn
        omega
    | none =>
      simp only []
      cases hs : (P.ProcessTransaction (P.initPeerClient st).1 tx).2.2 with
      | none =>
        simp [reconnectAttempts, successfulReconnects, submissions, failedSubmissions,
          List.countP_append, List.countP_cons, List.countP_nil, PeerCall.isReconnect,
          PeerCall.isSuccessfulReconnect, PeerCall.isSubmit, PeerCall.isFailedSubmit]
        omega
      | some e2 =>
        simp only []
        have h := ih (P.ProcessTransaction (P.initPeerClient st).1 tx).1
          (L ++ [PeerCall.reconnect none]
            ++ [PeerCall.submit tx (P.ProcessTransaction (P.initPeerClient st).1 tx).2.1
              (some e2)])
          (P.ProcessTransaction (P.initPeerClient st).1 tx).2.1 e2 _ rfl
        simp only [reconnectAttempts, successfulReconnects, submissions, failedSubmissions,
          List.countP_append, List.countP_cons, List.countP_nil, PeerCall.isReconnect,
          PeerCall.isSuccessfulReconnect, PeerCall.isSubmit, PeerCall.isFailedSubmit] at h ⊢
        simp only [if_true, Bool.false_eq_true, if_false] at h
        refine ⟨by omega, by omega, fun hn => ?_, fun hn => ?_⟩
        · have := h.2.2.1 hn
          omega
        · have := h.2.2.2 hn
          omega

/-- C13 as stated fails.  With `retryCount = 1` and a transport that never succeeds during
the run (reconnects succeeding), there is one reconnect attempt and there are two failed
submissions; with `retryCount = 3`, a first submission that fails and reconnects that all
fail, there are three reconnect attempts and there is one failed submission. -/
theorem reconnects_differ_from_failed_submissions :
    ¬ (reconnectAttempts
          (processTransaction
            (flakyPeer 5 (fun _ => "unavailable") { Status := 200, Msg := "OK" }).recording
            1 (0, []) { Payload := ["send"] }).1.2
        = failedSubmissions
          (processTransaction
            (flakyPeer 5 (fun _ => "unavailable") { Status := 200, Msg := "OK" }).recording
            1 (0, []) { Payload := ["send"] }).1.2)
      ∧ ¬ (reconnectAttempts
          (processTransaction
            (scriptedPeer (fun _ => (none, some "unavailable")) (fun _ => some "refused")
              ).recording
            3 ((0, 0), []) { Payload := ["send"] }).1.2
        = failedSubmissions
          (processTransaction
            (scriptedPeer (fun _ => (none, some "unavailable")) (fun _ => some "refused")
              ).recording
            3 ((0, 0), []) { Payload := ["send"] }).1.2) := by
  constructor <;> decide

/-- C13, amended.  For every `retryCount >= 0`, every peer, connection state and
transaction, in the run of `processTransaction` started with an empty call log:
the number of reconnect attempts is at most `retryCount`;
the number of submissions is one plus the number of successful reconnects (a failed
reconnect is followed by no submission of its own), and so at most `retryCount + 1`;
when a nil error is returned, the number of failed submissions equals the number of
successful reconnects;
when an error is returned, the number of failed submissions is the number of successful
reconnects plus one, and the number of reconnect attempts is exactly `retryCount` (failed
reconnects did not end the loop early). -/
theorem reconnect_accounting {σ : Type} (P : PeerClient σ) (st : σ) (tx : Transaction)
    (retryCount : Int) (h0 : 0 ≤ retryCount) :
    ((reconnectAttempts (processTransaction P.recording retryCount (st, []) tx).1.2 : Int)
        ≤ retryCount)
      ∧ submissions (processTransaction P.recording retryCount (st, []) tx).1.2
        = 1 + successfulReconnects (processTransaction P.recording retryCount (st, []) tx).1.2
      ∧ ((submissions (processTransaction P.recording retryCount (st, []) tx).1.2 : Int)
        ≤ retryCount + 1)
      ∧ ((processTransaction P.recording retryCount (st, []) tx).2.2 = none →
        failedSubmissions (processTransaction P.recording retryCount (st, []) tx).1.2
          = successfulReconnects (processTransaction P.recording retryCount (st, []) tx).1.2)
      ∧ ((processTransaction P.recording retryCount (st, []) tx).2.2 ≠ none →
        failedSubmissions (processTransaction P.recording retryCount (st, []) tx).1.2
            = successfulReconnects
                (processTransaction P.recording retryCount (st, []) tx).1.2 + 1
          ∧ (reconnectAttempts
                (processTransaction P.recording retryCount (st, []) tx).1.2 : Int)
            = retryCount) := by
  have hle : ∀ L : List PeerCall, successfulReconnects L ≤ reconnectAttempts L := by
    intro L
    unfold successfulReconnects reconnectAttempts
    apply List.countP_mono_left
    intro c _ hc
    cases c with
    | submit t r err => simp [PeerCall.isSuccessfulReconnect] at hc
    | reconnect err => rfl
  have hR := hle (processTransaction P.recording retryCount (st, []) tx).1.2
  revert hR
  unfold processTransaction
  simp only [recording_ProcessTransaction]
  cases hr : (P.ProcessTransaction st tx).2.2 with
  | none =>
    simp [reconnectAttempts, successfulReconnects, submissions, failedSubmissions,
      PeerCall.isReconnect, PeerCall.isSuccessfulReconnect, PeerCall.isSubmit,
      PeerCall.isFailedSubmit]
    omega
  | some e =>
    simp only []
    intro hR
    have h := retryLoop_accounting P tx retryCount.toNat (P.ProcessTransaction st tx).1
      ([] ++ [PeerCall.submit tx (P.ProcessTransaction st tx).2.1 (some e)])
      (P.ProcessTransaction st tx).2.1 e _ rfl
    have hL1 : reconnectAttempts
        ([] ++ [PeerCall.submit tx (P.ProcessTransaction st tx).2.1 (some e)]) = 0 := by
      simp [reconnectAttempts, PeerCall.isReconnect]
    have hL2 : successfulReconnects
        ([] ++ [PeerCall.submit tx (P.ProcessTransaction st tx).2.1 (some e)]) = 0 := by
      simp [successfulReconnects, PeerCall.isSuccessfulReconnect]
    have hL3 : submissions
        ([] ++ [PeerCall.submit tx (P.ProcessTransaction st tx).2.1 (some e)]) = 1 := by
      simp [submissions, PeerCall.isSubmit]
    have hL4 : failedSubmissions
        ([] ++ [PeerCall.submit tx (P.ProcessTransaction st tx).2.1 (some e)]) = 1 := by
      simp [failedSubmissions, PeerCall.isFailedSubmit]
    rw [hL1, hL2, hL3, hL4] at h
    obtain ⟨h1, h2, h3, h4⟩ := h
    refine ⟨by omega, by omega, by omega, fun hn => ?_, fun hn => ?_⟩
    · have := h3 hn
      omega
    · have := h4 hn
      omega

/-- C13, amended, at two concrete runs with `retryCount = 3`: one that fails twice and then
succeeds, and one in which the first submission and every reconnect fail. -/
theorem reconnect_accounting_witness :
    (failedSubmissions
        (processTransaction
          (flakyPeer 2 (fun _ => "unavailable") { Status := 200, Msg := "OK" }).recording
          3 (0, []) { Payload := ["send"] }).1.2
      = successfulReconnects
        (processTransaction
          (flakyPeer 2 (fun _ => "unavailable") { Status := 200, Msg := "OK" }).recording
          3 (0, []) { Payload := ["send"] }).1.2)
      ∧ (failedSubmissions
          (processTransaction
            (scriptedPeer (fun _ => (none, some "unavailable")) (fun _ => some "refused")
              ).recording
            3 ((0, 0), []) { Payload := ["send"] }).1.2
          = successfulReconnects
            (processTransaction
              (scriptedPeer (fun _ => (none, some "unavailable")) (fun _ => some "refused")
                ).recording
              3 ((0, 0), []) { Payload := ["send"] }).1.2 + 1
        ∧ (reconnectAttempts
            (processTransaction
              (scriptedPeer (fun _ => (none, some "unavailable")) (fun _ => some "refused")
                ).recording
              3 ((0, 0), []) { Payload := ["send"] }).1.2 : Int) = 3) :=
  ⟨(reconnect_accounting
      (flakyPeer 2 (fun _ => "unavailable") { Status := 200, Msg := "OK" })
      0 { Payload := ["send"] } 3 (by decide)).2.2.2.1 (by decide),
   (reconnect_accounting
      (scriptedPeer (fun _ => (none, some "unavailable")) (fun _ => some "refused"))
      (0, 0) { Payload := ["send"] } 3 (by decide)).2.2.2.2 (by decide)⟩

end Blue
